import Mathlib

/-!
Verification of the Dionisio Wine Company cart page
(`src/frontend/src/app/cart/page.tsx`) against its specification.

The page is a single React component. Its logic is embedded shallowly:
- React `useState` state (`cart`, `total`) together with the persisted
  `localStorage` keys becomes an explicit `CartState` record that every
  handler maps to a new record plus an effect record.
- JavaScript numbers are modelled as `Rat` (prices) and `Int`
  (quantities, stock); the code's runtime coercions
  (`typeof item.price === 'number' ? item.price : 0` and
  `item.quantity || 1`) are modelled with `Option` fields and explicit
  coercion functions.
- External collaborators (the `createrOrder` helper, the
  `/api/checkout_sessions` fetch, `Swal` dialogs, the router) are
  abstracted: their outcomes are parameters, their invocations are
  recorded in effect records.
-/

namespace DionisioCart

/-- Modelled from the spec: the `IProduct` interface (imported from
`@/interface`, a file not present in the repository snapshot). The spec's
data model gives `productId, name, imgUrl : string`, `price : number`,
`quantity : number`, `stock : number`. Since cart items flow in from
`JSON.parse` of local storage, and the page itself guards against a
non-numeric `price` (`typeof item.price === 'number'`) and a missing or
falsy `quantity` (`item.quantity || 1`), those two fields are modelled as
`Option`: `price = none` stands for a non-numeric value and
`quantity = none` for an absent field. -/
structure IProduct where
  productId : String
  name : String
  imgUrl : String
  price : Option Rat
  quantity : Option Int
  stock : Int
  deriving Repr, DecidableEq

/-- The JavaScript coercion `item.quantity || 1`: an absent field and the
falsy number `0` both coerce to `1`; any other number is kept. -/
def qtyOrOne : Option Int → Int
  | none => 1
  | some q => if q = 0 then 1 else q

/-- The guard `typeof item.price === 'number' ? item.price : 0`
(page.tsx line 30): a non-numeric price contributes `0`. -/
def priceOrZero : Option Rat → Rat
  | none => 0
  | some p => p

/-- One item's contribution to the reduce in `calculateTotal`
(page.tsx line 30): `(typeof item.price === 'number' ? item.price : 0)
* (item.quantity || 1)`. -/
def itemContribution (item : IProduct) : Rat :=
  priceOrZero item.price * (qtyOrOne item.quantity : Rat)

/-- Function `calculateTotal` (page.tsx lines 28-34): `cartItems.reduce((acc, item)
=> acc + price * quantity, 0)`. The `setTotal` call is modelled by the
callers storing this value in the state record. -/
def calculateTotal (cartItems : List IProduct) : Rat :=
  cartItems.foldl (fun acc item => acc + itemContribution item) 0

/-- A JSON value as far as the cart page distinguishes them after
`JSON.parse`: an array of products, or any non-array value of which only
JavaScript truthiness is observed. -/
inductive JsVal where
  | arr (items : List IProduct)
  | nonArray (truthy : Bool)
  deriving Repr, DecidableEq

/-- The content of a `localStorage` key: absent (`getItem` returns
`null`), a string `JSON.parse` rejects (the parse throws), or a string
parsing to a `JsVal`. -/
inductive StoredVal where
  | absent
  | malformed
  | json (v : JsVal)
  deriving Repr, DecidableEq

/-- The component's state: the in-memory `cart` and `total` from
`useState`, plus the persisted `"cart"` key. -/
structure CartState where
  cart : List IProduct
  total : Rat
  cartKey : StoredVal
  deriving Repr, DecidableEq

/-- Function `updateLocalStorage` (page.tsx lines 36-38):
`localStorage.setItem("cart", JSON.stringify(updatedCart))` — the key now
holds the serialization of the given list. -/
def updateLocalStorage (updatedCart : List IProduct) : StoredVal :=
  .json (.arr updatedCart)

/-- The cart-loading `useEffect` (page.tsx lines 18-26):
`JSON.parse(localStorage.getItem("cart") || "[]")`, then
`if (storedCart) { setCart(storedCart); calculateTotal(storedCart); }`.
There is no try/catch, so a malformed stored string makes `JSON.parse`
throw out of the effect (`.error ()`), and a truthy non-array value makes
`calculateTotal`'s `.reduce` throw a `TypeError` (`.error ()`); a falsy
parsed value skips the `if` and leaves the initial state `([], 0)`.
On success the result is the populated cart and its computed total. -/
def load : StoredVal → Except Unit (List IProduct × Rat)
  | .absent => .ok ([], calculateTotal [])
  | .malformed => .error ()
  | .json (.arr items) => .ok (items, calculateTotal items)
  | .json (.nonArray true) => .error ()
  | .json (.nonArray false) => .ok ([], 0)

/-- Handler `handleRemoveFromCart` (page.tsx lines 40-45): filter the cart by
`product.productId !== productId`, recompute the total, rewrite the
persisted form. -/
def handleRemoveFromCart (productId : String) (st : CartState) : CartState :=
  let updatedCart := st.cart.filter (fun product => product.productId ≠ productId)
  { cart := updatedCart
    total := calculateTotal updatedCart
    cartKey := updateLocalStorage updatedCart }

/-- The per-item body of the `map` in `handleQuantityChange`
(page.tsx lines 49-69): on the matching id compute
`newQuantity = (item.quantity || 1) + delta`; if `newQuantity >
item.stock` return the item unchanged (the warning dialog is recorded
separately), otherwise commit `quantity := Math.max(newQuantity, 1)`. -/
def stepQuantity (productId : String) (delta : Int) (item : IProduct) : IProduct :=
  if item.productId = productId then
    let newQuantity := qtyOrOne item.quantity + delta
    if newQuantity > item.stock then item
    else { item with quantity := some (max newQuantity 1) }
  else item

/-- Whether the `map` body fires the `Swal.fire` stock warning for this
item (page.tsx lines 53-59). -/
def itemWarns (productId : String) (delta : Int) (item : IProduct) : Bool :=
  decide (item.productId = productId ∧ qtyOrOne item.quantity + delta > item.stock)

/-- Handler `handleQuantityChange` (page.tsx lines 47-75): map `stepQuantity`
over the cart, recompute the total, rewrite the persisted form. The
`Bool` records whether a stock warning was surfaced. -/
def handleQuantityChange (productId : String) (delta : Int) (st : CartState) :
    CartState × Bool :=
  let updatedCart := st.cart.map (stepQuantity productId delta)
  ({ cart := updatedCart
     total := calculateTotal updatedCart
     cartKey := updateLocalStorage updatedCart },
   st.cart.any (itemWarns productId delta))

/-- The authenticated user from `useUser()`: only the `sub` identifier is
read by the page. `sub = none` models an absent/undefined identifier. -/
structure AuthUser where
  sub : Option String
  deriving Repr, DecidableEq

/-- JavaScript falsiness of `user.sub` as tested by `if (!userId)`
(page.tsx line 85): absent or the empty string. -/
def subFalsy : Option String → Bool
  | none => true
  | some s => decide (s = "")

/-- One element of the `orderItems` array built in `handleClick`
(page.tsx lines 95-98): `{ productId: product.productId, quantity:
product.quantity || 1 }`. -/
structure OrderItem where
  productId : String
  quantity : Int
  deriving Repr, DecidableEq

/-- The map body of page.tsx lines 95-98. -/
def toOrderItem (product : IProduct) : OrderItem :=
  ⟨product.productId, qtyOrOne product.quantity⟩

/-- The dialogs the page can surface through `Swal.fire`. -/
inductive Dialog where
  | userIdError
  | orderSuccess
  | orderFailure
  deriving Repr, DecidableEq

/-- Observable effects of one `handleClick` run: the route pushed through
the router, the dialog surfaced, and the order submitted to
`createrOrder` (the items together with the user id they are bound to);
`none` means the effect did not occur. -/
structure OrderEffects where
  navigatedTo : Option String
  dialog : Option Dialog
  submitted : Option (List OrderItem × String)
  deriving Repr, DecidableEq

/-- Handler `handleClick` (page.tsx lines 77-121). `createrOrder` is an external
helper (its source is outside the snapshot); its outcome is the
`orderResult` parameter. No user: push the login route and return.
Falsy `user.sub`: error dialog and return. Otherwise submit the mapped
`orderItems` bound to `userId`; on success clear the cart, zero the
total, rewrite storage to `[]`, show the success dialog and push
`"/home"`; on failure (the catch block) show the error dialog and leave
the state untouched. -/
def handleClick (user : Option AuthUser) (orderResult : Except Unit Unit)
    (st : CartState) : CartState × OrderEffects :=
  match user with
  | none => (st, ⟨some "/api/auth/login", none, none⟩)
  | some u =>
    if subFalsy u.sub then (st, ⟨none, some .userIdError, none⟩)
    else
      let userId := u.sub.getD ""
      let orderItems := st.cart.map toOrderItem
      match orderResult with
      | .ok _ =>
        ({ cart := [], total := 0, cartKey := updateLocalStorage [] },
         ⟨some "/home", some .orderSuccess, some (orderItems, userId)⟩)
      | .error _ => (st, ⟨none, some .orderFailure, some (orderItems, userId)⟩)

/-- One element of the `cartItems` payload sent to
`/api/checkout_sessions` (page.tsx lines 138-144). -/
structure CheckoutItem where
  productId : String
  name : String
  imgUrl : String
  price : Option Rat
  quantity : Int
  deriving Repr, DecidableEq

/-- The map body of page.tsx lines 138-144. -/
def toCheckoutItem (item : IProduct) : CheckoutItem :=
  ⟨item.productId, item.name, item.imgUrl, item.price, qtyOrOne item.quantity⟩

/-- Outcome of the `fetch('/api/checkout_sessions', ...)` call: a
success response carrying `data.url`, a non-ok response (`data.error`
logged), or a thrown network error. -/
inductive FetchResult where
  | success (url : String)
  | httpFailure
  | networkError
  deriving Repr, DecidableEq

/-- Observable effects of one `handleCheckout` run: whether the fetch
was issued and with which payload, the value written under the
`"checkoutItems"` key (if any), the URL assigned to
`window.location.href` (if any), and whether a `console.error`
diagnostic was logged. -/
structure CheckoutResult where
  requested : Bool
  payload : Option (List CheckoutItem)
  checkoutItemsKey : Option (List IProduct)
  redirect : Option String
  errorLogged : Bool
  deriving Repr, DecidableEq

/-- Handler `handleCheckout` (page.tsx lines 123-159). It re-reads the persisted
`"cart"` key (`JSON.parse(localStorage.getItem("cart") || "[]")`) inside
a try/catch. A malformed stored string makes `JSON.parse` throw into the
catch (log, no request); an absent key parses as `[]`; a falsy parsed
value or an empty array hits the emptiness guard (log, no request); a
truthy non-array value throws on `.length`/`.map` into the catch (log,
no request). With a non-empty array the fetch is issued with the mapped
payload; on an ok response the original `cartItems` are written under
`"checkoutItems"` and the browser is redirected to `data.url`; on a
non-ok response or a network error only a diagnostic is logged. The
in-memory state and the `"cart"` key are never touched. -/
def handleCheckout (fetchResult : FetchResult) (st : CartState) :
    CartState × CheckoutResult :=
  match st.cartKey with
  | .absent => (st, ⟨false, none, none, none, true⟩)
  | .malformed => (st, ⟨false, none, none, none, true⟩)
  | .json (.nonArray _) => (st, ⟨false, none, none, none, true⟩)
  | .json (.arr items) =>
    if items.isEmpty then (st, ⟨false, none, none, none, true⟩)
    else
      match fetchResult with
      | .success url =>
        (st, ⟨true, some (items.map toCheckoutItem), some items, some url, false⟩)
      | .httpFailure => (st, ⟨true, some (items.map toCheckoutItem), none, none, true⟩)
      | .networkError => (st, ⟨true, some (items.map toCheckoutItem), none, none, true⟩)

end DionisioCart

namespace DionisioCart

/-- Modelled from the spec: the §8 property "total = Σ(price ×
quantity)", written from the spec's words over the data-model fields
(price and quantity present), to be compared with `calculateTotal`. -/
def totalSpec (items : List IProduct) : Rat :=
  (items.map (fun item => item.price.getD 0 * ((item.quantity.getD 1 : Int) : Rat))).sum

/-- The `|| 1` coercion is the identity on a present, nonzero quantity. -/
theorem qtyOrOne_of_ne (x : Int) (hx : x ≠ 0) : qtyOrOne (some x) = x := by
  simp [qtyOrOne, hx]

/-- The fold in `calculateTotal` is the sum of the items' contributions. -/
theorem calculateTotal_eq_sum (items : List IProduct) :
    calculateTotal items = (items.map itemContribution).sum := by
  have h : ∀ (l : List IProduct) (a : Rat),
      l.foldl (fun acc item => acc + itemContribution item) a
        = a + (l.map itemContribution).sum := by
    intro l
    induction l with
    | nil => intro a; simp
    | cons x xs ih => intro a; simp [ih, add_assoc]
  simpa using h items 0

/-- C3: for every sequence of line items whose price is numeric and whose
quantity is a present, positive number (the spec's data model), the
computed total equals the sum over the items of price × quantity; the
total of the empty sequence is 0. -/
theorem C3_total_is_sum_of_price_times_quantity :
    calculateTotal [] = 0 ∧
    ∀ items : List IProduct,
      (∀ item ∈ items, item.price.isSome ∧
        ∃ q : Int, item.quantity = some q ∧ 1 ≤ q) →
      calculateTotal items = totalSpec items := by
  refine ⟨rfl, ?_⟩
  intro items h
  rw [calculateTotal_eq_sum, totalSpec]
  induction items with
  | nil => simp
  | cons x xs ih =>
    have hx := h x (by simp)
    obtain ⟨hp, q, hq, hq1⟩ := hx
    have hrest : ∀ item ∈ xs, item.price.isSome ∧
        ∃ q : Int, item.quantity = some q ∧ 1 ≤ q := by
      intro item hmem
      exact h item (by simp [hmem])
    obtain ⟨p, hpeq⟩ := Option.isSome_iff_exists.mp hp
    have hqne : q ≠ 0 := by omega
    simp [ih hrest, itemContribution, hpeq, hq, priceOrZero, qtyOrOne, hqne]

/-- First item of the spec's §8 scenario:
`{id:"A",price:5,qty:2,stock:5}`. -/
def itemA5 : IProduct := ⟨"A", "Wine A", "a.png", some 5, some 2, 5⟩

/-- Second item of the spec's §8 scenario:
`{id:"B",price:3,qty:1,stock:2}`. -/
def itemB1 : IProduct := ⟨"B", "Wine B", "b.png", some 3, some 1, 2⟩

/-- A concrete cart exercising C3: the spec's §8 scenario
`[{id:"A",price:5,qty:2,stock:5},{id:"B",price:3,qty:1,stock:2}]`. -/
def demoCartAB : List IProduct := [itemA5, itemB1]

/-- C3 witness: on the spec's scenario cart the hypotheses hold and the
computed total matches the spec-side sum (both are 13). -/
theorem C3_total_witness :
    (∀ item ∈ demoCartAB, item.price.isSome ∧
      ∃ q : Int, item.quantity = some q ∧ 1 ≤ q) ∧
    calculateTotal demoCartAB = totalSpec demoCartAB :=
  ⟨by decide, C3_total_is_sum_of_price_times_quantity.2 demoCartAB (by decide)⟩

/-- C1: for an item of the cart carrying the targeted `productId` and
satisfying the data model's stock bound (`1 ≤ stock`), `setQuantity`
never commits a quantity above the stock ceiling nor below 1: when
`newQuantity = (quantity || 1) + delta` exceeds the stock the item is
returned unchanged and the warning fires; otherwise the committed
quantity is `max(newQuantity, 1)`, which lies in `[1, stock]`. The
updated item is the one placed in the resulting cart. -/
theorem C1_setQuantity_respects_stock_bounds (productId : String) (delta : Int)
    (st : CartState) (item : IProduct) (hmem : item ∈ st.cart)
    (hid : item.productId = productId) (hstock : 1 ≤ item.stock) :
    stepQuantity productId delta item ∈ (handleQuantityChange productId delta st).1.cart ∧
    (qtyOrOne item.quantity + delta > item.stock →
      stepQuantity productId delta item = item ∧
      (handleQuantityChange productId delta st).2 = true) ∧
    (qtyOrOne item.quantity + delta ≤ item.stock →
      (stepQuantity productId delta item).quantity
          = some (max (qtyOrOne item.quantity + delta) 1) ∧
      1 ≤ qtyOrOne (stepQuantity productId delta item).quantity ∧
      qtyOrOne (stepQuantity productId delta item).quantity ≤ item.stock) := by
  refine ⟨?_, ?_, ?_⟩
  · simp only [handleQuantityChange]
    exact List.mem_map_of_mem _ hmem
  · intro hgt
    refine ⟨by simp [stepQuantity, hid, hgt], ?_⟩
    simp only [handleQuantityChange]
    rw [List.any_eq_true]
    exact ⟨item, hmem, by simp [itemWarns, hid, hgt]⟩
  · intro hle
    have hnotgt : ¬ qtyOrOne item.quantity + delta > item.stock := not_lt.mpr hle
    have hq : (stepQuantity productId delta item).quantity
        = some (max (qtyOrOne item.quantity + delta) 1) := by
      simp [stepQuantity, hid, hnotgt]
    have hmax1 : (1 : Int) ≤ max (qtyOrOne item.quantity + delta) 1 := le_max_right _ _
    have hmaxstock : max (qtyOrOne item.quantity + delta) 1 ≤ item.stock :=
      max_le hle hstock
    have hne : max (qtyOrOne item.quantity + delta) 1 ≠ 0 := by omega
    refine ⟨hq, ?_, ?_⟩ <;> rw [hq, qtyOrOne_of_ne _ hne]
    · exact hmax1
    · exact hmaxstock

/-- A one-item cart for the spec's §8 scenario
`[{id:"A",price:10,qty:1,stock:1}]`. -/
def itemA10 : IProduct := ⟨"A", "Wine A", "a.png", some 10, some 1, 1⟩

/-- The cart state holding `itemA10` with its computed total. -/
def stateA10 : CartState :=
  ⟨[itemA10], 10, updateLocalStorage [itemA10]⟩

/-- C1 witness: the spec's §8 scenario `setQuantity("A", +1)` on
`[{id:"A",price:10,qty:1,stock:1}]` — every hypothesis holds and the
rejection branch fires: the item is unchanged and the warning shown. -/
theorem C1_setQuantity_witness :
    itemA10 ∈ stateA10.cart ∧ itemA10.productId = "A" ∧ 1 ≤ itemA10.stock ∧
    (stepQuantity "A" 1 itemA10 ∈ (handleQuantityChange "A" 1 stateA10).1.cart ∧
     (qtyOrOne itemA10.quantity + 1 > itemA10.stock →
       stepQuantity "A" 1 itemA10 = itemA10 ∧
       (handleQuantityChange "A" 1 stateA10).2 = true) ∧
     (qtyOrOne itemA10.quantity + 1 ≤ itemA10.stock →
       (stepQuantity "A" 1 itemA10).quantity
           = some (max (qtyOrOne itemA10.quantity + 1) 1) ∧
       1 ≤ qtyOrOne (stepQuantity "A" 1 itemA10).quantity ∧
       qtyOrOne (stepQuantity "A" 1 itemA10).quantity ≤ itemA10.stock)) :=
  ⟨by decide, rfl, by decide,
   C1_setQuantity_respects_stock_bounds "A" 1 stateA10 itemA10
     (by decide) rfl (by decide)⟩

/-- C2 (code bug): the load effect has no try/catch around `JSON.parse`,
so a malformed stored value makes `load` throw (`Except.error`) instead
of being treated as the empty cart; an absent value does load as the
empty cart with total 0 as claimed. -/
theorem C2_load_throws_on_malformed :
    load StoredVal.malformed = Except.error () ∧
    load StoredVal.absent = Except.ok ([], 0) :=
  ⟨rfl, rfl⟩

/-- C7: removing a `productId` that no cart item carries leaves the cart
sequence unchanged and, when the total is the derived value of the cart
(the data model's invariant), leaves the total unchanged as well. -/
theorem C7_remove_missing_id_is_noop (productId : String) (st : CartState)
    (habsent : ∀ p ∈ st.cart, p.productId ≠ productId)
    (htotal : st.total = calculateTotal st.cart) :
    (handleRemoveFromCart productId st).cart = st.cart ∧
    (handleRemoveFromCart productId st).total = st.total := by
  have hfilter : st.cart.filter (fun product => product.productId ≠ productId)
      = st.cart := by
    apply List.filter_eq_self.mpr
    intro a ha
    simpa using habsent a ha
  refine ⟨hfilter, ?_⟩
  rw [htotal]
  exact congrArg calculateTotal hfilter

/-- The cart state for the spec's two-item scenario, carrying its
computed total (13). -/
def stateAB : CartState :=
  ⟨demoCartAB, calculateTotal demoCartAB, updateLocalStorage demoCartAB⟩

/-- C7 witness: removing the missing id "C" from the two-item scenario
cart leaves cart and total unchanged. -/
theorem C7_remove_missing_id_witness :
    (∀ p ∈ stateAB.cart, p.productId ≠ "C") ∧
    stateAB.total = calculateTotal stateAB.cart ∧
    ((handleRemoveFromCart "C" stateAB).cart = stateAB.cart ∧
     (handleRemoveFromCart "C" stateAB).total = stateAB.total) :=
  ⟨by decide, rfl,
   C7_remove_missing_id_is_noop "C" stateAB (by decide) rfl⟩

/-- C8: removing a present `productId` (unique in the cart, per the data
model) filters out exactly the matching line item, preserves the order of
the rest, recomputes the total over the remaining items and rewrites the
persisted form to match. -/
theorem C8_remove_present_id_filters_item (productId : String) (st : CartState)
    (l₁ l₂ : List IProduct) (p : IProduct)
    (hcart : st.cart = l₁ ++ p :: l₂) (hp : p.productId = productId)
    (hrest : ∀ q ∈ l₁ ++ l₂, q.productId ≠ productId) :
    (handleRemoveFromCart productId st).cart = l₁ ++ l₂ ∧
    (handleRemoveFromCart productId st).total = calculateTotal (l₁ ++ l₂) ∧
    (handleRemoveFromCart productId st).cartKey = updateLocalStorage (l₁ ++ l₂) := by
  have h₁ : l₁.filter (fun q => q.productId ≠ productId) = l₁ := by
    apply List.filter_eq_self.mpr
    intro a ha
    simpa using hrest a (by simp [ha])
  have h₂ : l₂.filter (fun q => q.productId ≠ productId) = l₂ := by
    apply List.filter_eq_self.mpr
    intro a ha
    simpa using hrest a (by simp [ha])
  have hfilter : st.cart.filter (fun q => q.productId ≠ productId) = l₁ ++ l₂ := by
    simp only [ne_eq, decide_not] at h₁ h₂
    rw [hcart, List.filter_append, List.filter_cons]
    simp [hp, h₁, h₂]
  exact ⟨hfilter, congrArg calculateTotal hfilter, congrArg updateLocalStorage hfilter⟩

/-- C8 witness: the spec's §8 scenario — `remove("A")` on the two-item
cart leaves `[{id:"B",...}]` with total recomputed (3) and the persisted
form rewritten. -/
theorem C8_remove_present_id_witness :
    stateAB.cart = [] ++ itemA5 :: [itemB1] ∧ itemA5.productId = "A" ∧
    (∀ q ∈ ([] ++ [itemB1] : List IProduct), q.productId ≠ "A") ∧
    ((handleRemoveFromCart "A" stateAB).cart = [] ++ [itemB1] ∧
     (handleRemoveFromCart "A" stateAB).total = calculateTotal ([] ++ [itemB1]) ∧
     (handleRemoveFromCart "A" stateAB).cartKey = updateLocalStorage ([] ++ [itemB1])) :=
  ⟨rfl, rfl, by decide,
   C8_remove_present_id_filters_item "A" stateAB [] [itemB1] itemA5
     rfl rfl (by decide)⟩

/-- C4: with an authenticated user whose identifier resolves, a
successful order-creation call leaves the cart empty, the total 0 and
the persisted cart rewritten to the empty sequence; a failed call leaves
the whole state (cart, total, persisted form) unchanged. -/
theorem C4_order_outcome_state (u : AuthUser) (s : String) (st : CartState)
    (hsub : u.sub = some s) (hs : s ≠ "") :
    (handleClick (some u) (Except.ok ()) st).1
        = ⟨[], 0, updateLocalStorage []⟩ ∧
    (handleClick (some u) (Except.error ()) st).1 = st := by
  have hfalsy : subFalsy u.sub = false := by simp [subFalsy, hsub, hs]
  constructor <;> simp [handleClick, hfalsy]

/-- An authenticated user with a resolvable identifier. -/
def demoUser : AuthUser := ⟨some "auth0|u1"⟩

/-- C4 witness: on the two-item scenario cart, a successful submission
clears everything and a failed one changes nothing. -/
theorem C4_order_outcome_witness :
    demoUser.sub = some "auth0|u1" ∧ "auth0|u1" ≠ "" ∧
    ((handleClick (some demoUser) (Except.ok ()) stateAB).1
        = ⟨[], 0, updateLocalStorage []⟩ ∧
     (handleClick (some demoUser) (Except.error ()) stateAB).1 = stateAB) :=
  ⟨rfl, by decide, C4_order_outcome_state demoUser "auth0|u1" stateAB rfl (by decide)⟩

/-- C5: when the payment-session request fails (non-ok response or
network error) the cart state and persisted cart are unchanged and
neither the `checkoutItems` key nor a redirect happens; moreover the
`checkoutItems` write and the redirect occur only under a success
response. -/
theorem C5_checkout_failure_frame (fetchResult : FetchResult) (st : CartState) :
    ((fetchResult = .httpFailure ∨ fetchResult = .networkError) →
      (handleCheckout fetchResult st).1 = st ∧
      (handleCheckout fetchResult st).2.checkoutItemsKey = none ∧
      (handleCheckout fetchResult st).2.redirect = none) ∧
    (((handleCheckout fetchResult st).2.checkoutItemsKey ≠ none ∨
      (handleCheckout fetchResult st).2.redirect ≠ none) →
      ∃ url, fetchResult = .success url) := by
  obtain ⟨cart, total, key⟩ := st
  rcases key with _ | _ | v
  · cases fetchResult <;> simp [handleCheckout]
  · cases fetchResult <;> simp [handleCheckout]
  · rcases v with items | b
    · cases hemp : items.isEmpty <;> cases fetchResult <;>
        simp [handleCheckout, hemp]
    · cases fetchResult <;> simp [handleCheckout]

/-- C5 witness: a non-ok response on the two-item scenario cart leaves
the state unchanged with no pending-checkout write and no redirect. -/
theorem C5_checkout_failure_witness :
    (FetchResult.httpFailure = FetchResult.httpFailure ∨
      FetchResult.httpFailure = FetchResult.networkError) ∧
    ((handleCheckout .httpFailure stateAB).1 = stateAB ∧
     (handleCheckout .httpFailure stateAB).2.checkoutItemsKey = none ∧
     (handleCheckout .httpFailure stateAB).2.redirect = none) :=
  ⟨Or.inl rfl, (C5_checkout_failure_frame .httpFailure stateAB).1 (Or.inl rfl)⟩

/-- C6: with an absent or empty persisted cart, `checkout()` only logs a
diagnostic: no request is issued, nothing is written, nothing redirects,
and the state is unchanged. -/
theorem C6_checkout_empty_cart_aborts (fetchResult : FetchResult) (st : CartState)
    (h : st.cartKey = .absent ∨ st.cartKey = .json (.arr [])) :
    handleCheckout fetchResult st = (st, ⟨false, none, none, none, true⟩) := by
  obtain ⟨cart, total, key⟩ := st
  dsimp only at h
  rcases h with h | h <;> subst h <;> cases fetchResult <;> simp [handleCheckout]

/-- The freshly cleared state: empty cart, zero total, `"[]"` persisted. -/
def emptyState : CartState := ⟨[], 0, updateLocalStorage []⟩

/-- C6 witness: on the empty persisted cart, checkout aborts with only
the logged diagnostic. -/
theorem C6_checkout_empty_witness :
    (emptyState.cartKey = .absent ∨ emptyState.cartKey = .json (.arr [])) ∧
    handleCheckout .networkError emptyState
      = (emptyState, ⟨false, none, none, none, true⟩) :=
  ⟨Or.inr rfl, C6_checkout_empty_cart_aborts .networkError emptyState (Or.inr rfl)⟩

/-- C9: `submitOrder()` with no user pushes the login route and does
nothing else; with a user whose `sub` is falsy it surfaces the error
dialog and does nothing else; with a user whose `sub` resolves it
submits the `{productId, quantity}` pairs bound to that identifier. -/
theorem C9_submit_order_guards (st : CartState) (orderResult : Except Unit Unit) :
    handleClick none orderResult st = (st, ⟨some "/api/auth/login", none, none⟩) ∧
    (∀ u : AuthUser, subFalsy u.sub = true →
      handleClick (some u) orderResult st = (st, ⟨none, some .userIdError, none⟩)) ∧
    (∀ u : AuthUser, ∀ s : String, u.sub = some s → s ≠ "" →
      (handleClick (some u) orderResult st).2.submitted
          = some (st.cart.map toOrderItem, s)) := by
  refine ⟨rfl, ?_, ?_⟩
  · intro u hu
    simp [handleClick, hu]
  · intro u s hsub hs
    have hfalsy : subFalsy u.sub = false := by simp [subFalsy, hsub, hs]
    rw [hsub] at hfalsy
    cases orderResult <;> simp [handleClick, hfalsy, hsub]

/-- C9 witness: the resolvable user submits the scenario cart's
`{productId, quantity}` pairs bound to their identifier. -/
theorem C9_submit_order_witness :
    demoUser.sub = some "auth0|u1" ∧ "auth0|u1" ≠ "" ∧
    (handleClick (some demoUser) (Except.ok ()) stateAB).2.submitted
        = some (stateAB.cart.map toOrderItem, "auth0|u1") :=
  ⟨rfl, by decide,
   (C9_submit_order_guards stateAB (Except.ok ())).2.2 demoUser "auth0|u1"
     rfl (by decide)⟩

/-- C10: an item with a missing or falsy (zero) quantity is coerced to
quantity 1 everywhere: its summand in the total is `price × 1`, the
order payload carries quantity 1 and the checkout payload carries
quantity 1; and an item with a non-numeric price contributes 0 to the
total. -/
theorem C10_falsy_quantity_coerced_to_one (item : IProduct)
    (hq : item.quantity = none ∨ item.quantity = some 0) :
    itemContribution item = priceOrZero item.price * 1 ∧
    toOrderItem item = ⟨item.productId, 1⟩ ∧
    toCheckoutItem item
        = ⟨item.productId, item.name, item.imgUrl, item.price, 1⟩ ∧
    (∀ other : IProduct, other.price = none → itemContribution other = 0) := by
  have h1 : qtyOrOne item.quantity = 1 := by
    rcases hq with h | h <;> simp [qtyOrOne, h]
  refine ⟨?_, ?_, ?_, ?_⟩
  · simp [itemContribution, h1]
  · simp [toOrderItem, h1]
  · simp [toCheckoutItem, h1]
  · intro other hother
    simp [itemContribution, priceOrZero, hother]

/-- An item whose quantity field is absent. -/
def itemNoQty : IProduct := ⟨"F", "Wine F", "f.png", some 7, none, 3⟩

/-- C10 witness: the quantity-less item is treated as quantity 1 by the
total, the order payload and the checkout payload. -/
theorem C10_falsy_quantity_witness :
    (itemNoQty.quantity = none ∨ itemNoQty.quantity = some 0) ∧
    (itemContribution itemNoQty = priceOrZero itemNoQty.price * 1 ∧
     toOrderItem itemNoQty = ⟨itemNoQty.productId, 1⟩ ∧
     toCheckoutItem itemNoQty
         = ⟨itemNoQty.productId, itemNoQty.name, itemNoQty.imgUrl, itemNoQty.price, 1⟩ ∧
     (∀ other : IProduct, other.price = none → itemContribution other = 0)) :=
  ⟨Or.inl rfl, C10_falsy_quantity_coerced_to_one itemNoQty (Or.inl rfl)⟩

end DionisioCart
